import Mathlib

/-!
Shallow embedding of `src/src/pages/PatientPage.tsx` from the
medplum-hello-world repository: the FHIR resource values the page consumes,
the GraphQL query string it builds, its render output, and a small
event-step semantics for its React state (`tab`, `response`), together with
a minimal model of the JavaScript value semantics needed for the
`onClick` handler at lines 182-191 (awaiting a function reference instead
of an invocation result).
-/

namespace PatientPage

/-- FHIR `Meta` as queried: only `lastUpdated` is selected. -/
structure MetaData where
  lastUpdated : Option String
deriving DecidableEq, Repr

/-- FHIR `HumanName` as used by the page: `given`, `family`, plus the
`prefix`/`suffix` fields read in the demographics table (named `pfx`/`sfx`
here because `prefix` is a reserved word in Lean). -/
structure HumanName where
  given : Option (List String)
  family : Option String
  pfx : Option (List String)
  sfx : Option (List String)
deriving DecidableEq, Repr

/-- FHIR `ContactPoint` as queried: `system`, `value`. -/
structure ContactPoint where
  system : Option String
  value : Option String
deriving DecidableEq, Repr

/-- FHIR `Address` as queried: `line`, `city`, `state`. -/
structure Address where
  line : Option (List String)
  city : Option String
  state : Option String
deriving DecidableEq, Repr

/-- FHIR `Attachment` as queried for `photo`. -/
structure Attachment where
  contentType : Option String
  url : Option String
  title : Option String
deriving DecidableEq, Repr

/-- FHIR `Patient` restricted to the fields the page queries and renders. -/
structure Patient where
  resourceType : String := "Patient"
  id : Option String
  meta : Option MetaData
  birthDate : Option String
  name : Option (List HumanName)
  telecom : Option (List ContactPoint)
  address : Option (List Address)
  photo : Option (List Attachment)
deriving DecidableEq, Repr

/-- FHIR `CodeableConcept` as used: `text` (rendered) and `coding` (set by
the create-report payload). -/
structure Coding where
  code : Option String
deriving DecidableEq, Repr

structure CodeableConcept where
  text : Option String := none
  coding : Option (List Coding) := none
deriving DecidableEq, Repr

/-- FHIR `ServiceRequest` restricted to the queried fields. -/
structure ServiceRequest where
  resourceType : String := "ServiceRequest"
  id : Option String
  meta : Option MetaData
  category : Option (List CodeableConcept)
  code : Option CodeableConcept
deriving DecidableEq, Repr

/-- FHIR `Reference` (the `subject` of a report). -/
structure Reference where
  reference : Option String
deriving DecidableEq, Repr

/-- FHIR `DiagnosticReport` restricted to the fields the page reads or
writes. -/
structure DiagnosticReport where
  resourceType : String := "DiagnosticReport"
  id : Option String := none
  meta : Option MetaData := none
  subject : Option Reference := none
  status : Option String := none
  code : Option CodeableConcept := none
deriving DecidableEq, Repr

/-- The `PatientGraphQLResponse` interface (lines 24-30). -/
structure ResponseData where
  patient : Patient
  orders : List ServiceRequest
  reports : List DiagnosticReport
deriving DecidableEq, Repr

structure PatientGraphQLResponse where
  data : ResponseData
deriving DecidableEq, Repr

/-! ### JavaScript value semantics

A minimal model of the JavaScript values flowing through the click handler:
`undefined`, strings, a stored report object, the async handler function
object itself, and a promise. -/

inductive JSValue where
  /-- JavaScript `undefined`. -/
  | jsUndefined
  /-- A string value. -/
  | str (s : String)
  /-- A `DiagnosticReport` object. -/
  | reportObj (d : DiagnosticReport)
  /-- The `handleAddDiagnosticReport` async function object itself. -/
  | handlerFn
  /-- A promise resolved with the given value. -/
  | promiseOf (v : JSValue)
deriving DecidableEq, Repr

/-- JavaScript `await`: a promise resolves to its value; a non-thenable
(such as a function object) is passed through unchanged. -/
def jsAwait : JSValue → JSValue
  | .promiseOf v => v
  | v => v

/-- JavaScript property access `.id`: a report object yields its stored
`id`; every other value here (in particular a function object) has no `id`
property, so the access yields `undefined`. -/
def getIdProp : JSValue → JSValue
  | .reportObj d =>
    match d.id with
    | some s => .str s
    | none => .jsUndefined
  | _ => .jsUndefined

/-- Template-literal interpolation `${v}`: `undefined` prints as the string
"undefined". -/
def jsInterp : JSValue → String
  | .jsUndefined => "undefined"
  | .str s => s
  | .reportObj _ => "[object Object]"
  | .handlerFn => "function"
  | .promiseOf _ => "[object Promise]"

/-- Template-literal interpolation of an optional string field
(`${o.id}` where the field may be absent). -/
def interpOpt : Option String → String
  | none => "undefined"
  | some s => s

/-- JSX child rendering of an optional string: `undefined` renders as
nothing (empty text), a string as itself. -/
def jsxStr : Option String → String
  | none => ""
  | some s => s

/-! ### The GraphQL query (lines 45-89)

The template literal is the concatenation of four fixed fragments with the
route `id` interpolated three times: into the `Patient(id: "...")`
argument and into the `subject:` filters of the `ServiceRequestList` and
`DiagnosticReportList` clauses. -/

def qF0 : String := "\x7b\n      patient: Patient(id: \""

def qF1 : String := "\") \x7b\n        resourceType,\n        id,\n        meta \x7b lastUpdated \x7d,\n        birthDate,\n        name \x7b\n          given,\n          family\n        \x7d,\n        telecom \x7b\n          system,\n          value\n        \x7d,\n        address \x7b\n          line,\n          city,\n          state\n        \x7d\n        photo \x7b\n          contentType,\n          url,\n          title\n        \x7d\n      \x7d,\n      orders: ServiceRequestList(subject: \"Patient/"

def qF2 : String := "\") \x7b\n        resourceType,\n        id,\n        meta \x7b lastUpdated \x7d,\n        category \x7b\n          text\n        \x7d,\n        code \x7b\n          text\n        \x7d\n      \x7d,\n      reports: DiagnosticReportList(subject: \"Patient/"

def qF3 : String := "\") \x7b\n        resourceType,\n        id,\n        meta \x7b lastUpdated \x7d,\n        code \x7b\n          text\n        \x7d\n      \x7d\n    \x7d"

/-- The query template literal of lines 45-89 with `id` interpolated. -/
def query (id : String) : String :=
  qF0 ++ id ++ qF1 ++ id ++ qF2 ++ id ++ qF3

/-- The effect body (lines 44-91) issues exactly one `medplum.graphql`
call, carrying the composed query for the current `id`. -/
def effectGraphqlCalls (id : String) : List String :=
  [query id]

/-! ### `@medplum/core` helpers used by the page -/

/-- `getReferenceString(resource)`: the template `resourceType/id`
(line 112 uses it as the header key). -/
def getReferenceString (p : Patient) : String :=
  p.resourceType ++ "/" ++ interpOpt p.id

/-- `createReference(resource)`: a `Reference` whose `reference` string is
`resourceType/id` of the referenced resource (used at line 102). -/
def createReference (p : Patient) : Reference :=
  { reference := some (getReferenceString p) }

/-! ### Render output

The JSX tree is flattened into a list of render nodes: each constructor is
one visible element the page emits.  External widgets
(`AddressDisplay`, `ContactPointDisplay`, ...) are kept opaque, carrying
the value handed to them. -/

inductive RNode where
  /-- The `<Loader />` shown while `response` is undefined (line 94). -/
  | loader
  /-- `<PatientHeader patient={...} key={...} />` (line 112). -/
  | patientHeader (key : String)
  /-- A `<Tabs.Tab>` button (lines 116-118). -/
  | tabButton (value : String) (label : String)
  /-- `<ResourceAvatar value={patient} />` (line 132). -/
  | resourceAvatar (p : Patient)
  /-- `<ResourceName value={patient} />` (line 133). -/
  | resourceName (p : Patient)
  /-- An `<h3>` heading. -/
  | heading (s : String)
  /-- Plain text content. -/
  | text (s : String)
  /-- One `<AddressDisplay value={a} />` entry (line 140). -/
  | addressEntry (a : Address)
  /-- One `<ContactPointDisplay value={t} />` entry (line 146). -/
  | contactEntry (t : ContactPoint)
  /-- A `<td>` cell of the demographics table. -/
  | tableCell (s : String)
  /-- One `<li><a href=...>label</a> (date)</li>` order item (lines 166-170). -/
  | orderItem (href : String) (label : String) (date : String)
  /-- One `<li><a href=...>label (date)</a></li>` report item (lines 174-180). -/
  | reportItem (href : String) (label : String) (date : String)
  /-- The `Add Diagnostic Report` button (lines 182-191). -/
  | addReportButton (label : String)
  /-- `<PatientTimeline patient={...} />` (line 198). -/
  | patientTimeline (p : Patient)
  /-- `<ResourceHistoryTable resourceType="Patient" id={...} />` (line 204). -/
  | historyTable (id : Option String)
deriving DecidableEq, Repr

/-- `formatDate` (lines 212-218): falsy input (`undefined` or the empty
string) yields the empty string; otherwise the date string is parsed and
locale-formatted.  Parsing plus `toLocaleDateString` is host-environment
behaviour, abstracted as the `loc` parameter. -/
def formatDate (loc : String → String) (date : Option String) : String :=
  match date with
  | none => ""
  | some d => if d = "" then "" else loc d

/-- The optional chain `patient?.name?.[0]` of lines 156-160. -/
def name0 (p : Patient) : Option HumanName :=
  p.name.bind (fun l => l[0]?)

/-- The overview panel (lines 121-193). -/
def renderOverview (loc : String → String) (patient : Patient)
    (orders : List ServiceRequest) (reports : List DiagnosticReport) :
    List RNode :=
  [RNode.resourceAvatar patient,
   RNode.resourceName patient,
   RNode.heading "Birth Date",
   RNode.text (jsxStr patient.birthDate),
   RNode.heading "Address"]
  ++ (patient.address.getD []).map RNode.addressEntry
  ++ [RNode.heading "Contact"]
  ++ (patient.telecom.getD []).map RNode.contactEntry
  ++ [RNode.heading "Demographics",
      RNode.text ("Created Date: " ++
        formatDate loc (patient.meta.bind MetaData.lastUpdated)),
      RNode.tableCell ("Prefix: " ++
        jsxStr ((name0 patient).bind HumanName.pfx |>.bind (fun l => l[0]?))),
      RNode.tableCell ("First: " ++
        jsxStr ((name0 patient).bind HumanName.given |>.bind (fun l => l[0]?))),
      RNode.tableCell ("Middle: " ++
        jsxStr ((name0 patient).bind HumanName.given |>.bind (fun l => l[1]?))),
      RNode.tableCell ("Last: " ++
        jsxStr ((name0 patient).bind HumanName.family)),
      RNode.tableCell ("Suffix: " ++
        jsxStr ((name0 patient).bind HumanName.sfx |>.bind (fun l => l[0]?))),
      RNode.heading ("Orders (" ++ toString orders.length ++ ")")]
  ++ orders.map (fun o =>
      RNode.orderItem ("/ServiceRequest/" ++ interpOpt o.id)
        (jsxStr (o.code.bind CodeableConcept.text))
        (formatDate loc (o.meta.bind MetaData.lastUpdated)))
  ++ [RNode.heading ("Reports (" ++ toString reports.length ++ ")")]
  ++ reports.map (fun o =>
      RNode.reportItem ("/DiagnosticReport/" ++ interpOpt o.id)
        (jsxStr (o.code.bind CodeableConcept.text))
        (formatDate loc (o.meta.bind MetaData.lastUpdated)))
  ++ [RNode.addReportButton "Add Diagnostic Report"]

/-- The whole page render (lines 93-209): with no response yet, only the
loader; otherwise the header, the tab buttons and the three panels. -/
def renderPage (loc : String → String)
    (response : Option PatientGraphQLResponse) : List RNode :=
  match response with
  | none => [RNode.loader]
  | some r =>
    [RNode.patientHeader (getReferenceString r.data.patient),
     RNode.tabButton "overview" "Overview",
     RNode.tabButton "timeline" "Timeline",
     RNode.tabButton "history" "History"]
    ++ renderOverview loc r.data.patient r.data.orders r.data.reports
    ++ [RNode.patientTimeline r.data.patient,
        RNode.historyTable r.data.patient.id]

/-! ### The create-report handler and the click handler -/

/-- Side effects the page can emit towards the platform, the console and
the router. -/
inductive Action where
  /-- `medplum.graphql(query)` (line 90). -/
  | graphqlCall (q : String)
  /-- `medplum.createResource(reportData)` (line 106). -/
  | createCall (d : DiagnosticReport)
  /-- `console.log('Created Report', report.id)` (line 187). -/
  | consoleLog (s : String)
  /-- `navigate(target)` (line 189). -/
  | navigateTo (target : String)
deriving DecidableEq, Repr

/-- The `reportData` payload built at lines 100-105. -/
def reportData (patient : Patient) : DiagnosticReport :=
  { resourceType := "DiagnosticReport"
    subject := some (createReference patient)
    status := some "final"
    code := some { coding := some [{ code := some "Progress note" }] } }

/-- `handleAddDiagnosticReport` (lines 99-108), invoked: builds the
payload, issues one `createResource` call and returns (a promise of) the
stored report.  The platform's create endpoint is abstracted as `create`
(the server stores the payload and assigns an identifier). -/
def handleAddDiagnosticReport (create : DiagnosticReport → DiagnosticReport)
    (patient : Patient) : List Action × JSValue :=
  let rd := reportData patient
  let report := create rd
  ([Action.createCall rd], JSValue.promiseOf (JSValue.reportObj report))

/-- The button's `onClick` body as written (lines 185-190):
`const report = await handleAddDiagnosticReport;` awaits the handler
FUNCTION VALUE itself — the handler is never invoked, so no create call is
issued, `report` is the function object, and `report.id` is `undefined`. -/
def onClickActions : List Action :=
  let report := jsAwait JSValue.handlerFn
  [Action.consoleLog ("Created Report " ++ jsInterp (getIdProp report)),
   Action.navigateTo ("/DiagnosticReport/" ++ jsInterp (getIdProp report))]

/-- The `onClick` body as the spec says it was intended (invoke the
handler and await its result), for comparison with `onClickActions`. -/
def onClickIntendedActions (create : DiagnosticReport → DiagnosticReport)
    (patient : Patient) : List Action :=
  let invoked := handleAddDiagnosticReport create patient
  let report := jsAwait invoked.2
  invoked.1 ++
  [Action.consoleLog ("Created Report " ++ jsInterp (getIdProp report)),
   Action.navigateTo ("/DiagnosticReport/" ++ jsInterp (getIdProp report))]

/-! ### Component state and event semantics

React state of the component: the active tab (line 36, initially
`'overview'`) and the optional GraphQL response (line 38, initially
undefined).  Events are the things that can happen to a mounted component;
`step` gives the state writes each event performs and `emit` the actions
it issues. -/

structure ComponentState where
  tab : Option String
  response : Option PatientGraphQLResponse
deriving DecidableEq, Repr

/-- Initial state after mount: `useState('overview')`, `useState()`. -/
def initialState : ComponentState :=
  { tab := some "overview", response := none }

inductive Event where
  /-- The route `id` changed (or first mount): the effect re-runs. -/
  | idChange (id : String)
  /-- The graphql promise fulfilled with a response: `setResponse`. -/
  | queryFulfilled (r : PatientGraphQLResponse)
  /-- The graphql promise rejected: no handler is registered for this. -/
  | queryRejected (e : String)
  /-- The user selected a tab: `onTabChange={setTab}` (line 114). -/
  | selectTab (t : Option String)
  /-- The user clicked `Add Diagnostic Report`. -/
  | clickAddReport
deriving DecidableEq, Repr

/-- State transition for one event.  `queryFulfilled` applies
`setResponse` unconditionally — there is no generation token or identifier
check at line 90.  No other event writes `response`; only `selectTab`
writes `tab`. -/
def step (st : ComponentState) : Event → ComponentState
  | .idChange _ => st
  | .queryFulfilled r => { st with response := some r }
  | .queryRejected _ => st
  | .selectTab t => { st with tab := t }
  | .clickAddReport => st

/-- Actions emitted by one event.  An `idChange` issues the single graphql
call of the effect; a click runs the `onClick` body only when the button is
rendered (a response is present). -/
def emit (st : ComponentState) : Event → List Action
  | .idChange i => (effectGraphqlCalls i).map Action.graphqlCall
  | .queryFulfilled _ => []
  | .queryRejected _ => []
  | .selectTab _ => []
  | .clickAddReport =>
    match st.response with
    | none => []
    | some _ => onClickActions

/-- Run a whole event trace from the initial state. -/
def runTrace (events : List Event) : ComponentState :=
  events.foldl step initialState

/-- The payload of the last `queryFulfilled` event of a trace, if any. -/
def lastFulfilled (events : List Event) : Option PatientGraphQLResponse :=
  events.foldl
    (fun acc e =>
      match e with
      | .queryFulfilled r => some r
      | _ => acc)
    none

/-- The most recently requested identifier of a trace, if any. -/
def lastRequestedId (events : List Event) : Option String :=
  events.foldl
    (fun acc e =>
      match e with
      | .idChange i => some i
      | _ => acc)
    none

/-- `promise.then(onFulfilled)` with a single argument (line 90): a
fulfillment handler runs on success; a rejection reaches no handler at
all. -/
def thenFulfilledOnly {α β ε : Type} (onFulfilled : α → β)
    (outcome : Except ε α) : Option β :=
  match outcome with
  | .ok a => some (onFulfilled a)
  | .error _ => none

/-- The settled graphql promise applied to component state through
`.then(setResponse)`: on fulfillment the state update runs, on rejection
nothing runs and the state is untouched. -/
def applyOutcome (st : ComponentState)
    (outcome : Except String PatientGraphQLResponse) : ComponentState :=
  match thenFulfilledOnly (fun r => { st with response := some r }) outcome with
  | some st2 => st2
  | none => st

/-! ### Render-node classifiers and sample data used in concrete instances -/

def isAddressEntry : RNode → Bool
  | .addressEntry _ => true
  | _ => false

def isContactEntry : RNode → Bool
  | .contactEntry _ => true
  | _ => false

def isOrderItem : RNode → Bool
  | .orderItem _ _ _ => true
  | _ => false

def isReportItem : RNode → Bool
  | .reportItem _ _ _ => true
  | _ => false

def isCreateCall : Action → Bool
  | .createCall _ => true
  | _ => false

/-- A patient named Jane A. Doe with two addresses and one telecom entry
(the scenario of spec §8). -/
def janePatient : Patient :=
  { id := some "jane-1"
    meta := none
    birthDate := some "1970-01-01"
    name := some [{ given := some ["Jane", "A."], family := some "Doe",
                    pfx := none, sfx := none }]
    telecom := some [{ system := some "phone", value := some "555-0101" }]
    address := some [{ line := some ["1 Main St"], city := some "Springfield",
                       state := some "IL" },
                     { line := some ["2 Oak Ave"], city := some "Shelbyville",
                       state := some "IL" }]
    photo := none }

def janeResponse : PatientGraphQLResponse :=
  ⟨⟨janePatient, [], []⟩⟩

def sampleOrder (n : String) : ServiceRequest :=
  { id := some n, meta := none, category := none,
    code := some { text := some ("order " ++ n) } }

/-- A response carrying three orders and zero reports (spec §8). -/
def threeOrdersResponse : PatientGraphQLResponse :=
  ⟨⟨janePatient, [sampleOrder "o1", sampleOrder "o2", sampleOrder "o3"], []⟩⟩

/-- A response as served for patient identifier "1". -/
def responseForId1 : PatientGraphQLResponse :=
  ⟨⟨{ janePatient with id := some "1" }, [], []⟩⟩

/-- A response as served for patient identifier "2". -/
def responseForId2 : PatientGraphQLResponse :=
  ⟨⟨{ janePatient with id := some "2" }, [], []⟩⟩

/-- The race trace of spec §8: the identifier switches from "1" to "2",
the response for "2" arrives first and the stale response for "1" last. -/
def raceTrace : List Event :=
  [.idChange "1", .idChange "2",
   .queryFulfilled responseForId2, .queryFulfilled responseForId1]

/-! ### Claim theorems -/

/-- C1: the create-report button's click handler awaits the handler
function value itself instead of invoking it, so the click issues no
create call and navigates to the constant target
"/DiagnosticReport/undefined" — a target not derived from any created
record's assigned identifier, since the awaited object has no `id`. -/
theorem c1_click_references_handler (st : ComponentState)
    (r : PatientGraphQLResponse) (h : st.response = some r) :
    emit st .clickAddReport = onClickActions ∧
    jsAwait JSValue.handlerFn = JSValue.handlerFn ∧
    getIdProp (jsAwait JSValue.handlerFn) = JSValue.jsUndefined ∧
    onClickActions =
      [Action.consoleLog "Created Report undefined",
       Action.navigateTo "/DiagnosticReport/undefined"] ∧
    (∀ d : DiagnosticReport, Action.createCall d ∉ onClickActions) := by
  refine ⟨?_, rfl, rfl, rfl, ?_⟩
  · simp [emit, h]
  · intro d
    simp [onClickActions, jsAwait, getIdProp, jsInterp]

theorem c1_click_references_handler_witness :
    emit { tab := some "overview", response := some janeResponse }
        .clickAddReport = onClickActions ∧
    jsAwait JSValue.handlerFn = JSValue.handlerFn ∧
    getIdProp (jsAwait JSValue.handlerFn) = JSValue.jsUndefined ∧
    onClickActions =
      [Action.consoleLog "Created Report undefined",
       Action.navigateTo "/DiagnosticReport/undefined"] ∧
    (∀ d : DiagnosticReport, Action.createCall d ∉ onClickActions) :=
  c1_click_references_handler
    { tab := some "overview", response := some janeResponse } janeResponse rfl

/-- C2: `handleAddDiagnosticReport`, when actually invoked, issues exactly
one create call whose payload has resourceType "DiagnosticReport", subject
a reference to the current patient, status "final", and the fixed code
"Progress note". -/
theorem c2_handler_create_payload (create : DiagnosticReport → DiagnosticReport)
    (patient : Patient) :
    (handleAddDiagnosticReport create patient).1 =
      [Action.createCall (reportData patient)] ∧
    (reportData patient).resourceType = "DiagnosticReport" ∧
    (reportData patient).subject = some (createReference patient) ∧
    (reportData patient).status = some "final" ∧
    (reportData patient).code =
      some { coding := some [{ code := some "Progress note" }] } :=
  ⟨rfl, rfl, rfl, rfl, rfl⟩

set_option maxRecDepth 100000 in
/-- C3: while no response has arrived the page renders only the loader,
and the effect issues exactly one graphql call whose query text carries the
identifier interpolated into the `Patient(id: "...")` argument and into
the `subject: "Patient/..."` filters of both the orders and reports
clauses. -/
theorem c3_loading_and_single_query (loc : String → String) (id : String) :
    renderPage loc none = [RNode.loader] ∧
    effectGraphqlCalls id = [query id] ∧
    (effectGraphqlCalls id).length = 1 ∧
    query id = qF0 ++ id ++ qF1 ++ id ++ qF2 ++ id ++ qF3 ∧
    qF0 = "\x7b\n      patient: " ++ "Patient(id: \"" ∧
    (∃ s, qF1 = s ++ "ServiceRequestList(subject: \"Patient/") ∧
    (∃ s, qF2 = s ++ "DiagnosticReportList(subject: \"Patient/") := by
  refine ⟨rfl, rfl, rfl, rfl, by decide, ⟨?_, ?_⟩, ⟨?_, ?_⟩⟩
  · exact "\") \x7b\n        resourceType,\n        id,\n        meta \x7b lastUpdated \x7d,\n        birthDate,\n        name \x7b\n          given,\n          family\n        \x7d,\n        telecom \x7b\n          system,\n          value\n        \x7d,\n        address \x7b\n          line,\n          city,\n          state\n        \x7d\n        photo \x7b\n          contentType,\n          url,\n          title\n        \x7d\n      \x7d,\n      orders: "
  · decide
  · exact "\") \x7b\n        resourceType,\n        id,\n        meta \x7b lastUpdated \x7d,\n        category \x7b\n          text\n        \x7d,\n        code \x7b\n          text\n        \x7d\n      \x7d,\n      reports: "
  · decide

/-- C4: a rejected query promise is never observed — `.then` registered
only a fulfillment handler, so on rejection no handler runs, the state
(and in particular `response`) is unchanged, and the initial state keeps
rendering only the loader. -/
theorem c4_rejection_unobserved (st : ComponentState) (e : String)
    (loc : String → String) :
    thenFulfilledOnly (fun r => { st with response := some r })
      (Except.error e : Except String PatientGraphQLResponse) = none ∧
    applyOutcome st (Except.error e) = st ∧
    step st (.queryRejected e) = st ∧
    (applyOutcome initialState (Except.error e)).response = none ∧
    renderPage loc (applyOutcome initialState (Except.error e)).response =
      [RNode.loader] :=
  ⟨rfl, rfl, rfl, rfl, rfl⟩

/-- C5: under a response, the overview renders one address entry per
element of `patient.address`, one contact entry per element of
`patient.telecom`, and the demographics cells "First: " / "Last: " carry
the first given name and the family name of the first name entry; on the
Jane A. Doe sample (2 addresses, 1 telecom) this evaluates to 2 address
entries, 1 contact entry, "First: Jane" and "Last: Doe". -/
theorem c5_overview_demographics (loc : String → String)
    (r : PatientGraphQLResponse) :
    (renderPage loc (some r)).countP isAddressEntry =
      (r.data.patient.address.getD []).length ∧
    (renderPage loc (some r)).countP isContactEntry =
      (r.data.patient.telecom.getD []).length ∧
    RNode.tableCell ("First: " ++ jsxStr
        ((name0 r.data.patient).bind HumanName.given |>.bind
          (fun l => l[0]?))) ∈ renderPage loc (some r) ∧
    RNode.tableCell ("Last: " ++ jsxStr
        ((name0 r.data.patient).bind HumanName.family)) ∈
      renderPage loc (some r) ∧
    (renderPage (fun s => s) (some janeResponse)).countP isAddressEntry = 2 ∧
    (renderPage (fun s => s) (some janeResponse)).countP isContactEntry = 1 ∧
    RNode.tableCell "First: Jane" ∈ renderPage (fun s => s)
      (some janeResponse) ∧
    RNode.tableCell "Last: Doe" ∈ renderPage (fun s => s)
      (some janeResponse) := by
  refine ⟨?_, ?_, ?_, ?_, by decide, by decide, by decide, by decide⟩ <;>
    simp [renderPage, renderOverview, isAddressEntry, isContactEntry,
      Function.comp_def]

/-- C6: under a response with n orders and m reports, the overview headers
read "Orders (n)" and "Reports (m)" and exactly n linked order items are
rendered; on the sample with 3 orders and 0 reports this evaluates to
"Orders (3)", "Reports (0)" and 3 order items. -/
theorem c6_overview_lists (loc : String → String)
    (r : PatientGraphQLResponse) :
    RNode.heading ("Orders (" ++ toString r.data.orders.length ++ ")") ∈
      renderPage loc (some r) ∧
    RNode.heading ("Reports (" ++ toString r.data.reports.length ++ ")") ∈
      renderPage loc (some r) ∧
    (renderPage loc (some r)).countP isOrderItem = r.data.orders.length ∧
    (renderPage loc (some r)).countP isReportItem = r.data.reports.length ∧
    RNode.heading "Orders (3)" ∈ renderPage (fun s => s)
      (some threeOrdersResponse) ∧
    RNode.heading "Reports (0)" ∈ renderPage (fun s => s)
      (some threeOrdersResponse) ∧
    (renderPage (fun s => s) (some threeOrdersResponse)).countP
      isOrderItem = 3 := by
  refine ⟨?_, ?_, ?_, ?_, by decide, by decide, by decide⟩ <;>
    simp [renderPage, renderOverview, isOrderItem, isReportItem,
      Function.comp_def]

/-- Helper: running `step` over a trace, the final `response` is exactly
the payload carried by the last `queryFulfilled` event, independent of the
starting state apart from its response. -/
theorem response_after_foldl (events : List Event) (st : ComponentState) :
    (events.foldl step st).response =
      events.foldl
        (fun acc e =>
          match e with
          | .queryFulfilled r => some r
          | _ => acc)
        st.response := by
  induction events generalizing st with
  | nil => rfl
  | cons e rest ih =>
    cases e <;> simp [List.foldl_cons, step, ih]

/-- C7: responses are applied to the state unconditionally, so after any
event trace the stored response is the payload of whichever fulfillment
arrived last; on the concrete race trace (request "1", request "2",
response for "2", then the stale response for "1") the displayed patient
is the one for identifier "1" although the most recent request was for
"2". -/
theorem c7_last_response_wins :
    (∀ events : List Event,
      (runTrace events).response = lastFulfilled events) ∧
    lastRequestedId raceTrace = some "2" ∧
    (runTrace raceTrace).response = some responseForId1 ∧
    responseForId1.data.patient.id = some "1" := by
  refine ⟨fun events => ?_, by decide, by decide, rfl⟩
  simpa [runTrace, lastFulfilled, initialState] using
    response_after_foldl events initialState

/-- C8: the tab state starts as "overview" and is written only by the
user's tab selection: every other event leaves it unchanged. -/
theorem c8_tab_only_user_mutated :
    initialState.tab = some "overview" ∧
    (∀ (st : ComponentState) (e : Event),
      (∀ t, e ≠ Event.selectTab t) → (step st e).tab = st.tab) ∧
    (∀ (st : ComponentState) (t : Option String),
      step st (.selectTab t) = { st with tab := t }) := by
  refine ⟨rfl, ?_, fun st t => rfl⟩
  intro st e h
  cases e with
  | selectTab t => exact absurd rfl (h t)
  | idChange i => rfl
  | queryFulfilled r => rfl
  | queryRejected er => rfl
  | clickAddReport => rfl

theorem c8_tab_only_user_mutated_witness :
    (step initialState (.queryFulfilled janeResponse)).tab =
      initialState.tab :=
  c8_tab_only_user_mutated.2.1 initialState (.queryFulfilled janeResponse)
    (by intro t h; cases h)

/-- C9: `formatDate` maps undefined and empty input to the empty string,
every non-empty input to the locale rendering of the parsed date, and is a
total function (it cannot throw); a missing `meta` or `lastUpdated` on any
rendered resource therefore yields empty date text. -/
theorem c9_formatDate (loc : String → String) :
    formatDate loc none = "" ∧
    formatDate loc (some "") = "" ∧
    (∀ s : String, s ≠ "" → formatDate loc (some s) = loc s) ∧
    (∀ m : Option MetaData, m.bind MetaData.lastUpdated = none →
      formatDate loc (m.bind MetaData.lastUpdated) = "") := by
  refine ⟨rfl, rfl, fun s hs => ?_, fun m hm => ?_⟩
  · simp [formatDate, hs]
  · rw [hm]
    rfl

theorem c9_formatDate_witness :
    formatDate (fun s => "loc " ++ s) none = "" ∧
    formatDate (fun s => "loc " ++ s) (some "") = "" ∧
    formatDate (fun s => "loc " ++ s) (some "2020-01-01") =
      "loc 2020-01-01" ∧
    formatDate (fun s => "loc " ++ s)
      ((none : Option MetaData).bind MetaData.lastUpdated) = "" :=
  ⟨(c9_formatDate (fun s => "loc " ++ s)).1,
   (c9_formatDate (fun s => "loc " ++ s)).2.1,
   (c9_formatDate (fun s => "loc " ++ s)).2.2.1 "2020-01-01" (by decide),
   (c9_formatDate (fun s => "loc " ++ s)).2.2.2 none rfl⟩

/-- C10: the create-report interaction performs no state write — the click
event leaves the whole component state (hence the stored response and the
rendered page) unchanged, and the invoked handler's effect list is just
the one create call, so the new report cannot appear in the rendered
reports list until a new query responds. -/
theorem c10_create_leaves_state (st : ComponentState)
    (r : PatientGraphQLResponse)
    (create : DiagnosticReport → DiagnosticReport) (patient : Patient)
    (h : st.response = some r) :
    step st .clickAddReport = st ∧
    (step st .clickAddReport).response = some r ∧
    (∀ loc, renderPage loc (step st .clickAddReport).response =
      renderPage loc st.response) ∧
    (∀ loc, (renderPage loc (step st .clickAddReport).response).countP
      isReportItem = r.data.reports.length) ∧
    (handleAddDiagnosticReport create patient).1 =
      [Action.createCall (reportData patient)] := by
  refine ⟨rfl, h, fun loc => rfl, fun loc => ?_, rfl⟩
  show (renderPage loc st.response).countP isReportItem = _
  rw [h]
  simp [renderPage, renderOverview, isReportItem, Function.comp_def]

theorem c10_create_leaves_state_witness :
    step { tab := some "overview", response := some janeResponse }
        .clickAddReport =
      { tab := some "overview", response := some janeResponse } ∧
    (handleAddDiagnosticReport id janePatient).1 =
      [Action.createCall (reportData janePatient)] :=
  ⟨(c10_create_leaves_state
      { tab := some "overview", response := some janeResponse }
      janeResponse id janePatient rfl).1,
   (c10_create_leaves_state
      { tab := some "overview", response := some janeResponse }
      janeResponse id janePatient rfl).2.2.2.2⟩

end PatientPage
